import Mathlib

/-!
Shallow embedding of the MCP bridge in `src-tauri/src/api.rs` of the
`ipcrm/napkin` repository, together with theorems settling the claims
about the correlation table (`api_response`, `bridge_tool_call`), the
JSON-RPC dispatch and batching (`handle_mcp_method`, `mcp_post_handler`),
the server lifecycle (`start_api_server`, `stop_api_server`,
`get_api_status`) and the tool catalog (`mcp_tools_list`).

JSON values are modelled by the inductive `Json`; objects keep their
fields as an ordered association list, which is how the embedding tracks
the insertion order of the `serde_json::json!` literals in the source.
-/

/-- Model of `serde_json::Value`. Numbers are modelled as integers, which
covers every numeric literal the bridge itself produces (ids, error codes). -/
inductive Json where
  | null : Json
  | bool : Bool → Json
  | num : Int → Json
  | str : String → Json
  | arr : List Json → Json
  | obj : List (String × Json) → Json
deriving Repr

namespace Json

/-- Model of `serde_json::Value::is_null`. -/
def isNull : Json → Bool
  | .null => true
  | _ => false

/-- Model of `serde_json::Value::is_array`. -/
def isArr : Json → Bool
  | .arr _ => true
  | _ => false

/-- Lookup of a field in an ordered field list, first occurrence wins. -/
def lookupField (fields : List (String × Json)) (key : String) : Option Json :=
  match fields with
  | [] => none
  | (k, v) :: rest => if k = key then some v else lookupField rest key

/-- Model of `Value::get(key)` on JSON values: a field lookup that yields
`none` when the value is not an object or the key is absent. -/
def getObjVal (j : Json) (key : String) : Option Json :=
  match j with
  | .obj fields => lookupField fields key
  | _ => none

/-- Model of `Value::as_str`. -/
def asStr : Json → Option String
  | .str s => some s
  | _ => none

/-- Items of a JSON array, defaulting to the empty list off arrays. -/
def arrItems : Json → List Json
  | .arr xs => xs
  | _ => []

/-- True when the value is an object carrying the given key. -/
def hasKey (j : Json) (key : String) : Bool :=
  (j.getObjVal key).isSome

end Json

/-- Rendering of `Option<serde_json::Value>` inside a `json!` literal:
`None` serializes as JSON `null`. -/
def optIdToJson : Option Json → Json
  | none => Json.null
  | some v => v

-- Serialization (model of serde_json::to_string_pretty).

/-- Escaping of one character inside a JSON string literal, as in the
serde_json serializer: quote, backslash and ASCII control characters are
escaped, everything else passes through. -/
def escapeJsonChar (c : Char) : String :=
  if c = '\"' then "\\\""
  else if c = '\\' then "\\\\"
  else if c = '\n' then "\\n"
  else if c = '\r' then "\\r"
  else if c = '\t' then "\\t"
  else if c.toNat < 32 then
    "\\u00" ++ String.mk [Nat.digitChar (c.toNat / 16), Nat.digitChar (c.toNat % 16)]
  else String.singleton c

/-- JSON string literal with quotes and escapes. -/
def renderJsonString (s : String) : String :=
  "\"" ++ String.join (s.data.map escapeJsonChar) ++ "\""

/-- Opening brace character of a JSON object. -/
def lbrace : String := String.singleton (Char.ofNat 123)

/-- Closing brace character of a JSON object. -/
def rbrace : String := String.singleton (Char.ofNat 125)

/-- Two-space indentation used by the serde_json pretty serializer. -/
def prettyIndent (depth : Nat) : String := String.join (List.replicate depth "  ")

/-- Comma and newline separated concatenation of pretty-rendered items. -/
def joinPrettyItems (items : List String) : String :=
  String.intercalate ",\n" items

mutual

/-- Model of the serde_json pretty serializer (`to_string_pretty`):
two-space indentation, each array item and object member on its own line. -/
def Json.renderPretty (depth : Nat) : Json → String
  | .null => "null"
  | .bool b => if b then "true" else "false"
  | .num n => toString n
  | .str s => renderJsonString s
  | .arr [] => "[]"
  | .arr (x :: xs) =>
      "[\n" ++ joinPrettyItems (Json.renderPrettyList (depth + 1) (x :: xs)) ++
        "\n" ++ prettyIndent depth ++ "]"
  | .obj [] => lbrace ++ rbrace
  | .obj (f :: fs) =>
      lbrace ++ "\n" ++ joinPrettyItems (Json.renderPrettyFields (depth + 1) (f :: fs)) ++
        "\n" ++ prettyIndent depth ++ rbrace

/-- Pretty-rendered array items, each prefixed by its indentation. -/
def Json.renderPrettyList (depth : Nat) : List Json → List String
  | [] => []
  | x :: xs => (prettyIndent depth ++ Json.renderPretty depth x) :: Json.renderPrettyList depth xs

/-- Pretty-rendered object members, each prefixed by its indentation. -/
def Json.renderPrettyFields (depth : Nat) : List (String × Json) → List String
  | [] => []
  | (k, v) :: fs =>
      (prettyIndent depth ++ renderJsonString k ++ ": " ++ Json.renderPretty depth v) ::
        Json.renderPrettyFields depth fs

end

/-- Model of `serde_json::to_string_pretty` at top level. -/
def to_string_pretty (j : Json) : String := Json.renderPretty 0 j

-- Constants (api.rs lines 20-21 and 199-201).

/-- Fixed listening port, `DEFAULT_PORT` in the source. -/
def DEFAULT_PORT : Nat := 21420

/-- Fixed bridge wait, `REQUEST_TIMEOUT_SECS` in the source. -/
def REQUEST_TIMEOUT_SECS : Nat := 15

/-- Protocol version constant, `MCP_PROTOCOL_VERSION` in the source. -/
def MCP_PROTOCOL_VERSION : String := "2025-03-26"

/-- Server name constant, `MCP_SERVER_NAME` in the source. -/
def MCP_SERVER_NAME : String := "napkin"

/-- Build version constant, `MCP_SERVER_VERSION` in the source; the source
reads it from the build environment (`CARGO_PKG_VERSION`), so the embedding
fixes it as an arbitrary version string. No claim depends on its value. -/
def MCP_SERVER_VERSION : String := "0.1.0"

-- JSON-RPC envelopes (api.rs lines 213-230).

/-- Model of `mcp_error(id, code, message)`: the JSON-RPC error envelope. -/
def mcp_error (id : Option Json) (code : Int) (message : String) : Json :=
  Json.obj [("jsonrpc", Json.str "2.0"),
            ("id", optIdToJson id),
            ("error", Json.obj [("code", Json.num code), ("message", Json.str message)])]

/-- Model of `mcp_result(id, result)`: the JSON-RPC success envelope. -/
def mcp_result (id : Option Json) (result : Json) : Json :=
  Json.obj [("jsonrpc", Json.str "2.0"),
            ("id", optIdToJson id),
            ("result", result)]

-- Request type and deserialization (api.rs lines 203-211).

/-- Model of `McpJsonRpcRequest`: the serde-deserialized JSON-RPC request.
The `jsonrpc` field is kept because deserialization requires it, exactly as
the `#[allow(dead_code)]` field in the source. -/
structure McpJsonRpcRequest where
  jsonrpc : String
  id : Option Json
  method : String
  params : Json
deriving Repr

/-- Model of serde deserialization of one `McpJsonRpcRequest` from a JSON
value: the value must be an object with a string `jsonrpc` field and a
string `method` field; `id` is optional and JSON `null` reads as absent
(serde treats `null` as `None` for an `Option` field); `params` defaults to
JSON `null` when absent (`#[serde(default)]`); unknown fields are ignored. -/
def parseMcpRequest (j : Json) : Option McpJsonRpcRequest :=
  match j with
  | Json.obj fields =>
      match Json.lookupField fields "jsonrpc", Json.lookupField fields "method" with
      | some (Json.str ver), some (Json.str m) =>
          let id :=
            match Json.lookupField fields "id" with
            | none => none
            | some Json.null => none
            | some v => some v
          let params := (Json.lookupField fields "params").getD Json.null
          some { jsonrpc := ver, id := id, method := m, params := params }
      | _, _ => none
  | _ => none

/-- Model of serde deserialization of `Vec<McpJsonRpcRequest>` from the
items of a JSON array: every item must deserialize, in order, and one
failure fails the whole vector. -/
def parseRequestList (items : List Json) : Option (List McpJsonRpcRequest) :=
  match items with
  | [] => some []
  | x :: xs =>
      match parseMcpRequest x, parseRequestList xs with
      | some r, some rs => some (r :: rs)
      | _, _ => none

-- Bridge correlator: pending table, api_response, bridge_tool_call
-- (api.rs lines 25-57 and 151-195).

/-- Slot identity standing for the `oneshot::Sender` half of a pending
request; the embedding only needs to track which waiter a delivery goes
to, so an abstract identifier suffices. -/
abbrev SlotId := Nat

/-- Model of the correlation table
`HashMap<String, oneshot::Sender<Value>>`: an association list whose keys
are kept distinct by construction (insert erases the key first, matching
the single-binding invariant of a `HashMap`). -/
abbrev PendingMap := List (String × SlotId)

/-- Model of `HashMap::get` on the correlation table. -/
def lookupToken (t : String) (m : PendingMap) : Option SlotId :=
  match m with
  | [] => none
  | (k, s) :: rest => if k = t then some s else lookupToken t rest

/-- Model of `HashMap::remove` on the correlation table: every binding of
the key disappears (a `HashMap` holds at most one). -/
def eraseToken (t : String) (m : PendingMap) : PendingMap :=
  m.filter (fun kv => kv.1 ≠ t)

/-- Model of `HashMap::insert` on the correlation table: the new binding
replaces any existing binding of the key. -/
def insertToken (t : String) (s : SlotId) (m : PendingMap) : PendingMap :=
  (t, s) :: eraseToken t m

/-- Model of the `api_response` Tauri command (the `complete` operation):
under the table lock, remove the entry for `request_id`; when one was
present, send `result` into its sender. The returned pair is the table
after the call and the attempted delivery (`none` when no entry was
found, in which case the call is a silent no-op). The command itself
returns nothing and can never fail. -/
def api_response (request_id : String) (result : Json) (m : PendingMap) :
    PendingMap × Option (SlotId × Json) :=
  match lookupToken request_id m with
  | some slot => (eraseToken request_id m, some (slot, result))
  | none => (m, none)

/-- Possible fates of the bounded wait inside `bridge_tool_call`, covering
the three arms of the `tokio::time::timeout(..., rx)` match: the
application called `api_response` with the token before the timeout, the
sender was dropped without a send, or fifteen seconds elapsed with no
completion. -/
inductive BridgeScenario where
  | completedInTime (v : Json)
  | slotDropped
  | noCompletion
deriving Repr

/-- Model of `bridge_tool_call`: insert a fresh token with a fresh slot,
emit the `mcp-tool-request` event (removing the token and failing when the
emit fails), then wait on the slot. In the `completedInTime` scenario the
delivery runs through `api_response` (which removes the entry) and the
wait resolves with the delivered value; in the `slotDropped` scenario the
wait returns a closed-channel error and the entry stays; in the
`noCompletion` scenario the timeout fires, the caller removes its own
token and returns the timeout error. The result is the returned
`Result<Value, String>` together with the final table. -/
def bridge_tool_call (token : String) (slot : SlotId) (emitErr : Option String)
    (scenario : BridgeScenario) (m : PendingMap) :
    Except String Json × PendingMap :=
  let m1 := insertToken token slot m
  match emitErr with
  | some e => (.error ("Failed to emit event: " ++ e), eraseToken token m1)
  | none =>
      match scenario with
      | .completedInTime v => (.ok v, (api_response token v m1).1)
      | .slotDropped => (.error "Internal error: bridge channel closed", m1)
      | .noCompletion => (.error "Request timed out", eraseToken token m1)

-- Tool catalog (api.rs lines 232-605).

/-- Model of `mcp_tools_list`: the static catalog served by `tools/list`,
transcribed entry by entry from the `json!` literal in the source. -/
def mcp_tools_list : Json :=
  Json.arr [
    Json.obj [
      ("name", Json.str "get_canvas"),
      ("description", Json.str "Get the full canvas state including all shapes, viewport, and groups"),
      ("inputSchema", Json.obj [
        ("type", Json.str "object"),
        ("properties", Json.obj []),
        ("additionalProperties", Json.bool false)])],
    Json.obj [
      ("name", Json.str "list_shapes"),
      ("description", Json.str "List all shapes on the canvas, optionally filtered by type"),
      ("inputSchema", Json.obj [
        ("type", Json.str "object"),
        ("properties", Json.obj [
          ("type", Json.obj [
            ("type", Json.str "string"),
            ("description", Json.str "Filter by shape type (rectangle, ellipse, triangle, diamond, hexagon, star, cloud, cylinder, sticky, line, arrow, freedraw, text)"),
            ("enum", Json.arr [Json.str "rectangle", Json.str "ellipse", Json.str "triangle", Json.str "diamond", Json.str "hexagon", Json.str "star", Json.str "cloud", Json.str "cylinder", Json.str "sticky", Json.str "line", Json.str "arrow", Json.str "freedraw", Json.str "text"])])]),
        ("additionalProperties", Json.bool false)])],
    Json.obj [
      ("name", Json.str "get_shape"),
      ("description", Json.str "Get a single shape by its ID"),
      ("inputSchema", Json.obj [
        ("type", Json.str "object"),
        ("properties", Json.obj [
          ("id", Json.obj [("type", Json.str "string"), ("description", Json.str "Shape ID")])]),
        ("required", Json.arr [Json.str "id"]),
        ("additionalProperties", Json.bool false)])],
    Json.obj [
      ("name", Json.str "create_shape"),
      ("description", Json.str "Create a new shape on the canvas. For geometric shapes (rectangle, ellipse, triangle, diamond, hexagon, star, cloud, cylinder) provide x, y, width, height. For sticky notes, also provide text and optionally stickyColor. For text shapes, provide text, fontSize. Returns the created shape."),
      ("inputSchema", Json.obj [
        ("type", Json.str "object"),
        ("properties", Json.obj [
          ("type", Json.obj [
            ("type", Json.str "string"),
            ("description", Json.str "Shape type to create"),
            ("enum", Json.arr [Json.str "rectangle", Json.str "ellipse", Json.str "triangle", Json.str "diamond", Json.str "hexagon", Json.str "star", Json.str "cloud", Json.str "cylinder", Json.str "sticky", Json.str "text"])]),
          ("x", Json.obj [("type", Json.str "number"), ("description", Json.str "X position")]),
          ("y", Json.obj [("type", Json.str "number"), ("description", Json.str "Y position")]),
          ("width", Json.obj [("type", Json.str "number"), ("description", Json.str "Width (default: 200)")]),
          ("height", Json.obj [("type", Json.str "number"), ("description", Json.str "Height (default: 150)")]),
          ("strokeColor", Json.obj [("type", Json.str "string"), ("description", Json.str "Stroke color (default: #000000)")]),
          ("strokeWidth", Json.obj [("type", Json.str "number"), ("description", Json.str "Stroke width (default: 2)")]),
          ("fillColor", Json.obj [("type", Json.str "string"), ("description", Json.str "Fill color (default: transparent)")]),
          ("opacity", Json.obj [("type", Json.str "number"), ("description", Json.str "Opacity 0-1 (default: 1)")]),
          ("roughness", Json.obj [("type", Json.str "number"), ("description", Json.str "Roughness 0-3 (default: 1)")]),
          ("text", Json.obj [("type", Json.str "string"), ("description", Json.str "Text content")]),
          ("fontSize", Json.obj [("type", Json.str "number"), ("description", Json.str "Font size for text shapes (default: 20)")]),
          ("stickyColor", Json.obj [("type", Json.str "string"), ("description", Json.str "Sticky note background color")]),
          ("rotation", Json.obj [("type", Json.str "number"), ("description", Json.str "Rotation in degrees")]),
          ("strokeStyle", Json.obj [("type", Json.str "string"), ("description", Json.str "Stroke style"), ("enum", Json.arr [Json.str "solid", Json.str "dashed", Json.str "dotted"])]),
          ("fillStyle", Json.obj [("type", Json.str "string"), ("description", Json.str "Fill style"), ("enum", Json.arr [Json.str "hachure", Json.str "solid", Json.str "zigzag", Json.str "cross-hatch", Json.str "dots"])])]),
        ("required", Json.arr [Json.str "type", Json.str "x", Json.str "y"]),
        ("additionalProperties", Json.bool false)])],
    Json.obj [
      ("name", Json.str "update_shape"),
      ("description", Json.str "Update properties of an existing shape. Only provide the properties you want to change."),
      ("inputSchema", Json.obj [
        ("type", Json.str "object"),
        ("properties", Json.obj [
          ("id", Json.obj [("type", Json.str "string"), ("description", Json.str "Shape ID to update")]),
          ("x", Json.obj [("type", Json.str "number")]),
          ("y", Json.obj [("type", Json.str "number")]),
          ("width", Json.obj [("type", Json.str "number")]),
          ("height", Json.obj [("type", Json.str "number")]),
          ("strokeColor", Json.obj [("type", Json.str "string")]),
          ("strokeWidth", Json.obj [("type", Json.str "number")]),
          ("fillColor", Json.obj [("type", Json.str "string")]),
          ("opacity", Json.obj [("type", Json.str "number")]),
          ("roughness", Json.obj [("type", Json.str "number")]),
          ("text", Json.obj [("type", Json.str "string")]),
          ("rotation", Json.obj [("type", Json.str "number")]),
          ("strokeStyle", Json.obj [("type", Json.str "string")]),
          ("fillStyle", Json.obj [("type", Json.str "string")])]),
        ("required", Json.arr [Json.str "id"]),
        ("additionalProperties", Json.bool false)])],
    Json.obj [
      ("name", Json.str "delete_shape"),
      ("description", Json.str "Delete a shape by its ID"),
      ("inputSchema", Json.obj [
        ("type", Json.str "object"),
        ("properties", Json.obj [
          ("id", Json.obj [("type", Json.str "string"), ("description", Json.str "Shape ID to delete")])]),
        ("required", Json.arr [Json.str "id"]),
        ("additionalProperties", Json.bool false)])],
    Json.obj [
      ("name", Json.str "create_image"),
      ("description", Json.str "Add an image to the canvas from a URL or base64 data URL. Supports PNG, JPEG, SVG, GIF. The image is embedded in the canvas."),
      ("inputSchema", Json.obj [
        ("type", Json.str "object"),
        ("properties", Json.obj [
          ("url", Json.obj [("type", Json.str "string"), ("description", Json.str "Image source: an http/https URL or a base64 data URL (e.g. data:image/png;base64,...)")]),
          ("x", Json.obj [("type", Json.str "number"), ("description", Json.str "X position (default: 0)")]),
          ("y", Json.obj [("type", Json.str "number"), ("description", Json.str "Y position (default: 0)")]),
          ("width", Json.obj [("type", Json.str "number"), ("description", Json.str "Width (optional, auto-calculated from image if omitted)")]),
          ("height", Json.obj [("type", Json.str "number"), ("description", Json.str "Height (optional, auto-calculated from image if omitted)")])]),
        ("required", Json.arr [Json.str "url"]),
        ("additionalProperties", Json.bool false)])],
    Json.obj [
      ("name", Json.str "create_connection"),
      ("description", Json.str "Create a line or arrow connecting two shapes. The connection will bind to the shapes\x27 connection points."),
      ("inputSchema", Json.obj [
        ("type", Json.str "object"),
        ("properties", Json.obj [
          ("fromShapeId", Json.obj [("type", Json.str "string"), ("description", Json.str "Source shape ID")]),
          ("toShapeId", Json.obj [("type", Json.str "string"), ("description", Json.str "Target shape ID")]),
          ("connectionType", Json.obj [
            ("type", Json.str "string"),
            ("description", Json.str "Type of connection (default: arrow)"),
            ("enum", Json.arr [Json.str "arrow", Json.str "line"])]),
          ("routingMode", Json.obj [
            ("type", Json.str "string"),
            ("description", Json.str "Line routing mode (default: direct)"),
            ("enum", Json.arr [Json.str "direct", Json.str "elbow", Json.str "curved"])]),
          ("text", Json.obj [("type", Json.str "string"), ("description", Json.str "Label text on the connection")]),
          ("strokeColor", Json.obj [("type", Json.str "string")]),
          ("strokeWidth", Json.obj [("type", Json.str "number")])]),
        ("required", Json.arr [Json.str "fromShapeId", Json.str "toShapeId"]),
        ("additionalProperties", Json.bool false)])],
    Json.obj [
      ("name", Json.str "set_viewport"),
      ("description", Json.str "Set the canvas viewport (pan and zoom)"),
      ("inputSchema", Json.obj [
        ("type", Json.str "object"),
        ("properties", Json.obj [
          ("x", Json.obj [("type", Json.str "number"), ("description", Json.str "Pan X offset")]),
          ("y", Json.obj [("type", Json.str "number"), ("description", Json.str "Pan Y offset")]),
          ("zoom", Json.obj [("type", Json.str "number"), ("description", Json.str "Zoom level (0.1 to 10)")])]),
        ("additionalProperties", Json.bool false)])],
    Json.obj [
      ("name", Json.str "select_shapes"),
      ("description", Json.str "Select shapes on the canvas by their IDs"),
      ("inputSchema", Json.obj [
        ("type", Json.str "object"),
        ("properties", Json.obj [
          ("ids", Json.obj [
            ("type", Json.str "array"),
            ("items", Json.obj [("type", Json.str "string")]),
            ("description", Json.str "Array of shape IDs to select")])]),
        ("required", Json.arr [Json.str "ids"]),
        ("additionalProperties", Json.bool false)])],
    Json.obj [
      ("name", Json.str "list_tabs"),
      ("description", Json.str "List all open tabs"),
      ("inputSchema", Json.obj [
        ("type", Json.str "object"),
        ("properties", Json.obj []),
        ("additionalProperties", Json.bool false)])],
    Json.obj [
      ("name", Json.str "create_tab"),
      ("description", Json.str "Create a new tab"),
      ("inputSchema", Json.obj [
        ("type", Json.str "object"),
        ("properties", Json.obj [
          ("title", Json.obj [("type", Json.str "string"), ("description", Json.str "Tab title (default: Untitled)")])]),
        ("additionalProperties", Json.bool false)])],
    Json.obj [
      ("name", Json.str "switch_tab"),
      ("description", Json.str "Switch to a different tab"),
      ("inputSchema", Json.obj [
        ("type", Json.str "object"),
        ("properties", Json.obj [
          ("tabId", Json.obj [("type", Json.str "string"), ("description", Json.str "Tab ID to switch to")])]),
        ("required", Json.arr [Json.str "tabId"]),
        ("additionalProperties", Json.bool false)])],
    Json.obj [
      ("name", Json.str "rename_tab"),
      ("description", Json.str "Rename a tab"),
      ("inputSchema", Json.obj [
        ("type", Json.str "object"),
        ("properties", Json.obj [
          ("tabId", Json.obj [("type", Json.str "string"), ("description", Json.str "Tab ID to rename")]),
          ("title", Json.obj [("type", Json.str "string"), ("description", Json.str "New title for the tab")])]),
        ("required", Json.arr [Json.str "tabId", Json.str "title"]),
        ("additionalProperties", Json.bool false)])],
    Json.obj [
      ("name", Json.str "bring_to_front"),
      ("description", Json.str "Move a shape to the top of the z-order (renders on top of all other shapes)"),
      ("inputSchema", Json.obj [
        ("type", Json.str "object"),
        ("properties", Json.obj [
          ("id", Json.obj [("type", Json.str "string"), ("description", Json.str "Shape ID to bring to front")])]),
        ("required", Json.arr [Json.str "id"]),
        ("additionalProperties", Json.bool false)])],
    Json.obj [
      ("name", Json.str "send_to_back"),
      ("description", Json.str "Move a shape to the bottom of the z-order (renders behind all other shapes)"),
      ("inputSchema", Json.obj [
        ("type", Json.str "object"),
        ("properties", Json.obj [
          ("id", Json.obj [("type", Json.str "string"), ("description", Json.str "Shape ID to send to back")])]),
        ("required", Json.arr [Json.str "id"]),
        ("additionalProperties", Json.bool false)])],
    Json.obj [
      ("name", Json.str "bring_forward"),
      ("description", Json.str "Move a shape one layer forward in z-order"),
      ("inputSchema", Json.obj [
        ("type", Json.str "object"),
        ("properties", Json.obj [
          ("id", Json.obj [("type", Json.str "string"), ("description", Json.str "Shape ID to bring forward")])]),
        ("required", Json.arr [Json.str "id"]),
        ("additionalProperties", Json.bool false)])],
    Json.obj [
      ("name", Json.str "send_backward"),
      ("description", Json.str "Move a shape one layer backward in z-order"),
      ("inputSchema", Json.obj [
        ("type", Json.str "object"),
        ("properties", Json.obj [
          ("id", Json.obj [("type", Json.str "string"), ("description", Json.str "Shape ID to send backward")])]),
        ("required", Json.arr [Json.str "id"]),
        ("additionalProperties", Json.bool false)])],
    Json.obj [
      ("name", Json.str "group_shapes"),
      ("description", Json.str "Group multiple shapes together"),
      ("inputSchema", Json.obj [
        ("type", Json.str "object"),
        ("properties", Json.obj [
          ("ids", Json.obj [
            ("type", Json.str "array"),
            ("items", Json.obj [("type", Json.str "string")]),
            ("description", Json.str "Array of shape IDs to group (minimum 2)")])]),
        ("required", Json.arr [Json.str "ids"]),
        ("additionalProperties", Json.bool false)])],
    Json.obj [
      ("name", Json.str "ungroup"),
      ("description", Json.str "Ungroup a shape group"),
      ("inputSchema", Json.obj [
        ("type", Json.str "object"),
        ("properties", Json.obj [
          ("groupId", Json.obj [("type", Json.str "string"), ("description", Json.str "Group ID to ungroup")])]),
        ("required", Json.arr [Json.str "groupId"]),
        ("additionalProperties", Json.bool false)])],
    Json.obj [
      ("name", Json.str "clear_canvas"),
      ("description", Json.str "Clear all shapes from the canvas"),
      ("inputSchema", Json.obj [
        ("type", Json.str "object"),
        ("properties", Json.obj []),
        ("additionalProperties", Json.bool false)])],
    Json.obj [
      ("name", Json.str "batch_operations"),
      ("description", Json.str "Perform multiple create/update/delete operations in a single batch. Each operation specifies an action and the relevant data."),
      ("inputSchema", Json.obj [
        ("type", Json.str "object"),
        ("properties", Json.obj [
          ("operations", Json.obj [
            ("type", Json.str "array"),
            ("description", Json.str "Array of operations to perform"),
            ("items", Json.obj [
              ("type", Json.str "object"),
              ("properties", Json.obj [
                ("action", Json.obj [
                  ("type", Json.str "string"),
                  ("enum", Json.arr [Json.str "create", Json.str "update", Json.str "delete"])]),
                ("data", Json.obj [
                  ("type", Json.str "object"),
                  ("description", Json.str "Shape data for create/update, or \x7bid\x7d for delete")])]),
              ("required", Json.arr [Json.str "action", Json.str "data"])])])]),
        ("required", Json.arr [Json.str "operations"]),
        ("additionalProperties", Json.bool false)])],
    Json.obj [
      ("name", Json.str "reorganize"),
      ("description", Json.str "Reorganize shapes on the canvas using an automatic layout algorithm. Applies to selected shape IDs (or all shapes if none specified). Supports grid layout (arranges shapes in a neat grid) and force-directed layout (positions shapes based on their connections). Bound arrows are automatically updated after layout."),
      ("inputSchema", Json.obj [
        ("type", Json.str "object"),
        ("properties", Json.obj [
          ("algorithm", Json.obj [
            ("type", Json.str "string"),
            ("description", Json.str "Layout algorithm to use"),
            ("enum", Json.arr [Json.str "grid", Json.str "force-directed"])]),
          ("shapeIds", Json.obj [
            ("type", Json.str "array"),
            ("items", Json.obj [("type", Json.str "string")]),
            ("description", Json.str "Shape IDs to reorganize. If omitted, all shapes are reorganized.")]),
          ("padding", Json.obj [("type", Json.str "number"), ("description", Json.str "Padding between shapes for grid layout (default: 40)")]),
          ("iterations", Json.obj [("type", Json.str "number"), ("description", Json.str "Number of iterations for force-directed layout (default: 100)")])]),
        ("required", Json.arr [Json.str "algorithm"]),
        ("additionalProperties", Json.bool false)])],
    Json.obj [
      ("name", Json.str "set_snap_settings"),
      ("description", Json.str "Configure snapping behavior. Controls snap-to-grid, alignment hints (visual guide lines when edges/centers align), and object snap (magnetic snap to aligned positions)."),
      ("inputSchema", Json.obj [
        ("type", Json.str "object"),
        ("properties", Json.obj [
          ("snapToGrid", Json.obj [("type", Json.str "boolean"), ("description", Json.str "Enable/disable snap to grid (20px grid)")]),
          ("alignmentHints", Json.obj [("type", Json.str "boolean"), ("description", Json.str "Enable/disable alignment guide lines")]),
          ("objectSnap", Json.obj [("type", Json.str "boolean"), ("description", Json.str "Enable/disable magnetic snap to aligned shapes")])]),
        ("additionalProperties", Json.bool false)])]]

-- MCP method dispatch (api.rs lines 609-666).

/-- Abstract outcome of `bridge_tool_call` for a given tool name and
arguments, as observed by the dispatcher: the `Result<Value, String>` it
returned. Quantifying the dispatch over this oracle separates the pure
response shaping from the concurrent bridge, whose own behavior is
modelled by `bridge_tool_call`. -/
abbrev BridgeOracle := String → Json → Except String Json

/-- Tool name extraction in the `tools/call` arm:
`params.get("name").and_then(as_str).unwrap_or("")`. -/
def toolCallName (params : Json) : String :=
  ((params.getObjVal "name").bind Json.asStr).getD ""

/-- Arguments extraction in the `tools/call` arm:
`params.get("arguments").cloned().unwrap_or(json!({}))`. -/
def toolCallArgs (params : Json) : Json :=
  (params.getObjVal "arguments").getD (Json.obj [])

/-- Fixed result object of the `initialize` method. -/
def initializeResult : Json :=
  Json.obj [("protocolVersion", Json.str MCP_PROTOCOL_VERSION),
            ("capabilities", Json.obj [("tools", Json.obj [])]),
            ("serverInfo", Json.obj [("name", Json.str MCP_SERVER_NAME),
                                     ("version", Json.str MCP_SERVER_VERSION)])]

/-- Body of the `tools/call` arm after the bridge returns: a success folds
the value into a text content block, a failure folds the message into a
text content block flagged `isError` — both inside a `mcp_result`
success envelope. -/
def toolCallResponse (id : Option Json) (outcome : Except String Json) : Json :=
  match outcome with
  | .ok content =>
      mcp_result id (Json.obj
        [("content", Json.arr [Json.obj
          [("type", Json.str "text"),
           ("text", Json.str (to_string_pretty content))]])])
  | .error msg =>
      mcp_result id (Json.obj
        [("isError", Json.bool true),
         ("content", Json.arr [Json.obj
          [("type", Json.str "text"),
           ("text", Json.str msg)]])])

/-- Model of `handle_mcp_method`: route by method name; the catch-all arm
answers with a method-not-found error echoing the id. -/
def handle_mcp_method (bridge : BridgeOracle) (req : McpJsonRpcRequest) : Json :=
  match req.method with
  | "initialize" => mcp_result req.id initializeResult
  | "notifications/initialized" => Json.null
  | "ping" => mcp_result req.id (Json.obj [])
  | "tools/list" => mcp_result req.id (Json.obj [("tools", mcp_tools_list)])
  | "tools/call" =>
      toolCallResponse req.id (bridge (toolCallName req.params) (toolCallArgs req.params))
  | m => mcp_error req.id (-32601) ("Method not found: " ++ m)

-- HTTP handler (api.rs lines 670-709).

/-- HTTP response as produced by the handler: a status code and an
optional JSON body (`none` is the empty body of `StatusCode::ACCEPTED`). -/
structure HttpResponse where
  status : Nat
  body : Option Json
deriving Repr

/-- Model of `mcp_post_handler` on an already-parsed JSON body (the axum
`Json` extractor has produced a `serde_json::Value`). The `perr` argument
stands for the serde error description interpolated into
`format!("Parse error: {}", e)`; no claim constrains its text. Arrays are
deserialized as a whole batch and processed strictly in order, keeping
only non-null replies; a non-array body is deserialized as one request,
answered 202 with an empty body when it is a notification or its handling
yields null, and 200 with the envelope otherwise. -/
def mcp_post_handler (bridge : BridgeOracle) (perr : String) (body : Json) :
    HttpResponse :=
  match body with
  | Json.arr items =>
      match parseRequestList items with
      | none => { status := 200, body := some (mcp_error none (-32700) ("Parse error: " ++ perr)) }
      | some reqs =>
          let results := (reqs.map (handle_mcp_method bridge)).filter (fun r => !r.isNull)
          { status := 200, body := some (Json.arr results) }
  | _ =>
      match parseMcpRequest body with
      | none => { status := 200, body := some (mcp_error none (-32700) ("Parse error: " ++ perr)) }
      | some req =>
          let is_notification := req.id.isNone
          let result := handle_mcp_method bridge req
          if is_notification || result.isNull then { status := 202, body := none }
          else { status := 200, body := some result }

-- Server lifecycle (api.rs lines 59-125).

/-- Observable lifecycle state: `running` models
`server_shutdown.is_some()`, the presence of a live shutdown sender. -/
structure ServerState where
  running : Bool
deriving Repr, DecidableEq

/-- Everything `start_api_server` produces: the `Result<u16, String>`
returned to the caller, the lifecycle state after the call, and whether
the spawned task actually reached its serving loop (`false` when the
listener bind failed and the task returned after logging). -/
structure StartOutcome where
  result : Except String Nat
  state : ServerState
  serving : Bool
deriving Repr

/-- Model of the `start_api_server` Tauri command. When already running it
fails with the already-running message and changes nothing. Otherwise it
stores the new shutdown sender (the state becomes running), spawns the
serving task and returns the port — the spawned task binds the listener
asynchronously, and a bind failure is only logged inside the task: it
affects neither the stored state nor the returned value, which is why the
`bindOk` input never reaches `result` or `state`. -/
def start_api_server (bindOk : Bool) (s : ServerState) : StartOutcome :=
  if s.running then
    { result := .error "API server is already running", state := s, serving := false }
  else
    { result := .ok DEFAULT_PORT, state := { running := true }, serving := bindOk }

/-- Model of the `stop_api_server` Tauri command: take the shutdown
sender if present and signal it, otherwise fail with the not-running
message. -/
def stop_api_server (s : ServerState) : Except String Unit × ServerState :=
  if s.running then (.ok (), { running := false })
  else (.error "API server is not running", s)

/-- Model of the `get_api_status` Tauri command: report whether a
shutdown sender is stored; the command always succeeds. -/
def get_api_status (s : ServerState) : Except String Bool := .ok s.running

-- Helper lemmas on the correlation table.

/-- Erasing a token always leaves the table without a binding for it. -/
theorem lookupToken_eraseToken_self (t : String) (m : PendingMap) :
    lookupToken t (eraseToken t m) = none := by
  induction m with
  | nil => rfl
  | cons kv rest ih =>
      by_cases h : kv.1 = t
      · simpa [eraseToken, List.filter, h] using ih
      · simpa [eraseToken, List.filter, h, lookupToken] using ih

/-- Absent tokens make `api_response` the identity with no delivery. -/
theorem api_response_of_absent (t : String) (v : Json) (m : PendingMap)
    (h : lookupToken t m = none) : api_response t v m = (m, none) := by
  simp [api_response, h]

/-- C1: for every token, `complete` (`api_response`) has an effect at most
once. The first call for a pending token removes the entry and delivers
the value to that entry, the table afterwards has no binding for the
token, a second call with the same token is a no-op, and any call whose
token is unknown to the table leaves it unchanged, delivers nothing and
is never an error (the operation is total and returns no failure). -/
theorem api_response_effect_at_most_once
    (m : PendingMap) (t : String) (v v2 w : Json) (slot : SlotId)
    (hpend : lookupToken t m = some slot) :
    api_response t v m = (eraseToken t m, some (slot, v)) ∧
    lookupToken t (api_response t v m).1 = none ∧
    api_response t v2 (api_response t v m).1 = ((api_response t v m).1, none) ∧
    (∀ (m2 : PendingMap) (u : String), lookupToken u m2 = none →
      api_response u w m2 = (m2, none)) := by
  refine ⟨by simp [api_response, hpend], ?_, ?_, fun m2 u h => api_response_of_absent u w m2 h⟩
  · simp [api_response, hpend, lookupToken_eraseToken_self]
  · simp [api_response, hpend]
    exact api_response_of_absent t v2 (eraseToken t m) (lookupToken_eraseToken_self t m)

/-- Witness for C1 on a one-entry table holding token `a`. -/
theorem api_response_effect_at_most_once_witness :
    api_response "a" Json.null [("a", 0)] = (eraseToken "a" [("a", 0)], some (0, Json.null)) ∧
    lookupToken "a" (api_response "a" Json.null [("a", 0)]).1 = none ∧
    api_response "a" (Json.num 7) (api_response "a" Json.null [("a", 0)]).1 =
      ((api_response "a" Json.null [("a", 0)]).1, none) ∧
    (∀ (m2 : PendingMap) (u : String), lookupToken u m2 = none →
      api_response u (Json.num 9) m2 = (m2, none)) :=
  api_response_effect_at_most_once [("a", 0)] "a" Json.null (Json.num 7) (Json.num 9) 0 (by rfl)

/-- C2: a `bridge_tool_call` whose fifteen-second wait sees no completion
returns the timeout error, the timed-out caller itself removes its token
from the table, and a later `complete` (`api_response`) for that token is
a silent no-op with no delivery rather than an error. -/
theorem bridge_tool_call_timeout_removes_token
    (token : String) (slot : SlotId) (m : PendingMap) (v : Json) :
    REQUEST_TIMEOUT_SECS = 15 ∧
    (bridge_tool_call token slot none BridgeScenario.noCompletion m).1 =
      Except.error "Request timed out" ∧
    lookupToken token (bridge_tool_call token slot none BridgeScenario.noCompletion m).2 = none ∧
    api_response token v (bridge_tool_call token slot none BridgeScenario.noCompletion m).2 =
      ((bridge_tool_call token slot none BridgeScenario.noCompletion m).2, none) := by
  refine ⟨rfl, rfl, ?_, ?_⟩
  · simpa [bridge_tool_call] using
      lookupToken_eraseToken_self token (insertToken token slot m)
  · exact api_response_of_absent token v _
      (by simpa [bridge_tool_call] using
        lookupToken_eraseToken_self token (insertToken token slot m))

/-- Bridge oracle whose every call ends like a timed-out
`bridge_tool_call`: the first component of the `noCompletion` scenario. -/
def timeoutBridge : BridgeOracle := fun _ _ =>
  (bridge_tool_call "t" 0 none BridgeScenario.noCompletion []).1

/-- Example request of the specification: `tools/call` with id 1 asking
for `create_shape` of a rectangle at the origin. -/
def toolsCallTimeoutBody : Json :=
  Json.obj [("jsonrpc", Json.str "2.0"),
            ("id", Json.num 1),
            ("method", Json.str "tools/call"),
            ("params", Json.obj [("name", Json.str "create_shape"),
                                 ("arguments", Json.obj [("type", Json.str "rectangle"),
                                                         ("x", Json.num 0),
                                                         ("y", Json.num 0)])])]

/-- Expected reply of the specification example: a success envelope whose
result carries `isError` and the timeout text. -/
def toolsCallTimeoutResponse : Json :=
  Json.obj [("jsonrpc", Json.str "2.0"),
            ("id", Json.num 1),
            ("result", Json.obj [("isError", Json.bool true),
                                 ("content", Json.arr [Json.obj [("type", Json.str "text"),
                                                                 ("text", Json.str "Request timed out")]])])]

/-- C3: every bridge-level failure of a `tools/call` is folded into a
JSON-RPC success envelope (`result` key present, no `error` key) whose
payload carries `isError` and the failure text; in particular the
specification example — id 1, no completion within the timeout — is
answered HTTP 200 with exactly the claimed envelope. -/
theorem tools_call_bridge_failure_folded_into_result
    (bridge : BridgeOracle) (req : McpJsonRpcRequest) (msg : String)
    (hm : req.method = "tools/call")
    (hb : bridge (toolCallName req.params) (toolCallArgs req.params) = Except.error msg) :
    handle_mcp_method bridge req =
      mcp_result req.id (Json.obj
        [("isError", Json.bool true),
         ("content", Json.arr [Json.obj [("type", Json.str "text"), ("text", Json.str msg)]])]) ∧
    (handle_mcp_method bridge req).hasKey "result" = true ∧
    (handle_mcp_method bridge req).hasKey "error" = false ∧
    mcp_post_handler timeoutBridge "e" toolsCallTimeoutBody =
      { status := 200, body := some toolsCallTimeoutResponse } := by
  obtain ⟨jr, id, method, params⟩ := req
  simp only at hm
  subst hm
  refine ⟨?_, ?_, ?_, rfl⟩
  · simp [handle_mcp_method, toolCallResponse, hb]
  · simp [handle_mcp_method, toolCallResponse, hb, mcp_result,
          Json.hasKey, Json.getObjVal, Json.lookupField]
  · simp [handle_mcp_method, toolCallResponse, hb, mcp_result,
          Json.hasKey, Json.getObjVal, Json.lookupField]

/-- Witness for C3 at the specification example request. -/
theorem tools_call_bridge_failure_folded_into_result_witness :
    handle_mcp_method timeoutBridge
        { jsonrpc := "2.0", id := some (Json.num 1), method := "tools/call",
          params := Json.obj [("name", Json.str "create_shape"),
                              ("arguments", Json.obj [("type", Json.str "rectangle"),
                                                      ("x", Json.num 0),
                                                      ("y", Json.num 0)])] } =
      mcp_result (some (Json.num 1)) (Json.obj
        [("isError", Json.bool true),
         ("content", Json.arr [Json.obj [("type", Json.str "text"),
                                         ("text", Json.str "Request timed out")]])]) ∧
    (handle_mcp_method timeoutBridge
        { jsonrpc := "2.0", id := some (Json.num 1), method := "tools/call",
          params := Json.obj [("name", Json.str "create_shape"),
                              ("arguments", Json.obj [("type", Json.str "rectangle"),
                                                      ("x", Json.num 0),
                                                      ("y", Json.num 0)])] }).hasKey "result" = true ∧
    (handle_mcp_method timeoutBridge
        { jsonrpc := "2.0", id := some (Json.num 1), method := "tools/call",
          params := Json.obj [("name", Json.str "create_shape"),
                              ("arguments", Json.obj [("type", Json.str "rectangle"),
                                                      ("x", Json.num 0),
                                                      ("y", Json.num 0)])] }).hasKey "error" = false ∧
    mcp_post_handler timeoutBridge "e" toolsCallTimeoutBody =
      { status := 200, body := some toolsCallTimeoutResponse } :=
  tools_call_bridge_failure_folded_into_result timeoutBridge
    { jsonrpc := "2.0", id := some (Json.num 1), method := "tools/call",
      params := Json.obj [("name", Json.str "create_shape"),
                          ("arguments", Json.obj [("type", Json.str "rectangle"),
                                                  ("x", Json.num 0),
                                                  ("y", Json.num 0)])] }
    "Request timed out" rfl rfl

/-- C4: a `start_api_server` call while stopped whose listener bind then
fails still returns the intended port as a success, has already marked
the state running (the spawned task never reaches its serving loop,
which is the logged-only failure), and `get_api_status` afterwards
reports running. -/
theorem start_bind_failure_still_reports_running
    (s : ServerState) (h : s.running = false) :
    (start_api_server false s).result = Except.ok DEFAULT_PORT ∧
    (start_api_server false s).state.running = true ∧
    (start_api_server false s).serving = false ∧
    get_api_status (start_api_server false s).state = Except.ok true := by
  simp [start_api_server, h, get_api_status]

/-- Witness for C4 from the stopped state. -/
theorem start_bind_failure_still_reports_running_witness :
    (start_api_server false { running := false }).result = Except.ok DEFAULT_PORT ∧
    (start_api_server false { running := false }).state.running = true ∧
    (start_api_server false { running := false }).serving = false ∧
    get_api_status (start_api_server false { running := false }).state = Except.ok true :=
  start_bind_failure_still_reports_running { running := false } rfl

/-- C8: the lifecycle is a two-state machine: `start_api_server` fails
with the already-running message exactly when called while running and
succeeds with the port exactly when called while stopped,
`stop_api_server` fails with the not-running message exactly when called
while stopped and succeeds exactly when called while running,
`get_api_status` never fails and reports exactly the running bit, which
a successful start sets and the matching stop clears. -/
theorem lifecycle_two_state_machine (s : ServerState) (bindOk : Bool) :
    ((start_api_server bindOk s).result = Except.error "API server is already running" ↔
      s.running = true) ∧
    ((start_api_server bindOk s).result = Except.ok DEFAULT_PORT ↔ s.running = false) ∧
    ((stop_api_server s).1 = Except.error "API server is not running" ↔ s.running = false) ∧
    ((stop_api_server s).1 = Except.ok () ↔ s.running = true) ∧
    get_api_status s = Except.ok s.running ∧
    (start_api_server bindOk { running := false }).state = { running := true } ∧
    (stop_api_server { running := true }).2 = { running := false } ∧
    (stop_api_server (start_api_server bindOk { running := false }).state).2 =
      { running := false } := by
  obtain ⟨r⟩ := s
  cases r <;> simp [start_api_server, stop_api_server, get_api_status]

/-- Well-formedness of one catalog entry: a non-empty string name, a
non-empty string description, and an `inputSchema` object whose `type`
is `object`. -/
def toolEntryOk (j : Json) : Bool :=
  match j.getObjVal "name", j.getObjVal "description", j.getObjVal "inputSchema" with
  | some (Json.str n), some (Json.str d), some (Json.obj fields) =>
      (!n.isEmpty) && (!d.isEmpty) &&
        (match Json.lookupField fields "type" with
         | some (Json.str t) => t == "object"
         | _ => false)
  | _, _, _ => false

set_option maxRecDepth 8192 in
/-- C9: every `tools/list` call answers with the one static catalog,
whose cardinality is 24 and whose every entry carries a non-empty name,
a non-empty description and an object-typed parameter schema. -/
theorem tools_list_stable_catalog (bridge : BridgeOracle) (req : McpJsonRpcRequest)
    (h : req.method = "tools/list") :
    handle_mcp_method bridge req = mcp_result req.id (Json.obj [("tools", mcp_tools_list)]) ∧
    (Json.arrItems mcp_tools_list).length = 24 ∧
    (Json.arrItems mcp_tools_list).all toolEntryOk = true := by
  obtain ⟨jr, id, method, params⟩ := req
  simp only at h
  subst h
  exact ⟨rfl, by decide, by decide⟩

/-- Witness for C9 at a concrete `tools/list` request. -/
theorem tools_list_stable_catalog_witness :
    handle_mcp_method (fun _ _ => Except.ok Json.null)
        { jsonrpc := "2.0", id := some (Json.num 3), method := "tools/list", params := Json.null } =
      mcp_result (some (Json.num 3)) (Json.obj [("tools", mcp_tools_list)]) ∧
    (Json.arrItems mcp_tools_list).length = 24 ∧
    (Json.arrItems mcp_tools_list).all toolEntryOk = true :=
  tools_list_stable_catalog (fun _ _ => Except.ok Json.null)
    { jsonrpc := "2.0", id := some (Json.num 3), method := "tools/list", params := Json.null } rfl

/-- Counterexample to C5 as stated: a batch holding a single id-less
`ping` — a notification in the sense of the claim, which says such an
entry contributes nothing and a batch of only notifications yields an
empty array — is in fact answered HTTP 200 with a one-element array
holding the ping reply under id null, because the batch path filters
only on null results and never consults the id. -/
theorem batch_idless_entry_still_contributes :
    mcp_post_handler (fun _ _ => Except.error "e") "e"
        (Json.arr [Json.obj [("jsonrpc", Json.str "2.0"), ("method", Json.str "ping")]]) =
      { status := 200, body := some (Json.arr [mcp_result none (Json.obj [])]) } ∧
    Json.arr [mcp_result none (Json.obj [])] ≠ Json.arr [] := by
  refine ⟨rfl, fun hcontra => ?_⟩
  injection hcontra with h2
  exact absurd h2 (List.cons_ne_nil _ _)

/-- C5 amended: for every batch body that parses, entries are handled
strictly in array order and an entry contributes nothing to the output
array exactly when its handling yields no result (as
`notifications/initialized` does, with or without an id) — an id-less
entry whose handling yields a reply is still included, with id null; the
response is HTTP 200 with the possibly-empty array, and in particular a
batch of only `notifications/initialized` entries yields HTTP 200 with
an empty array body. -/
theorem batch_in_order_filters_null_replies
    (bridge : BridgeOracle) (perr : String) (items : List Json)
    (reqs : List McpJsonRpcRequest) (h : parseRequestList items = some reqs) :
    mcp_post_handler bridge perr (Json.arr items) =
      { status := 200,
        body := some (Json.arr
          ((reqs.map (handle_mcp_method bridge)).filter (fun r => !r.isNull))) } ∧
    mcp_post_handler bridge perr
        (Json.arr [Json.obj [("jsonrpc", Json.str "2.0"),
                             ("method", Json.str "notifications/initialized")],
                   Json.obj [("jsonrpc", Json.str "2.0"), ("id", Json.num 5),
                             ("method", Json.str "notifications/initialized")]]) =
      { status := 200, body := some (Json.arr []) } := by
  exact ⟨by simp [mcp_post_handler, h], rfl⟩

/-- Witness for the amended C5 at a two-entry batch: one `ping` with id 2
and one `notifications/initialized`; only the ping reply survives the
null filter. -/
theorem batch_in_order_filters_null_replies_witness :
    mcp_post_handler (fun _ _ => Except.ok Json.null) "e"
        (Json.arr [Json.obj [("jsonrpc", Json.str "2.0"), ("id", Json.num 2),
                             ("method", Json.str "ping")],
                   Json.obj [("jsonrpc", Json.str "2.0"),
                             ("method", Json.str "notifications/initialized")]]) =
      { status := 200,
        body := some (Json.arr
          (([{ jsonrpc := "2.0", id := some (Json.num 2), method := "ping",
               params := Json.null },
             { jsonrpc := "2.0", id := none, method := "notifications/initialized",
               params := Json.null }].map
              (handle_mcp_method (fun _ _ => Except.ok Json.null))).filter
            (fun r => !r.isNull))) } ∧
    mcp_post_handler (fun _ _ => Except.ok Json.null) "e"
        (Json.arr [Json.obj [("jsonrpc", Json.str "2.0"),
                             ("method", Json.str "notifications/initialized")],
                   Json.obj [("jsonrpc", Json.str "2.0"), ("id", Json.num 5),
                             ("method", Json.str "notifications/initialized")]]) =
      { status := 200, body := some (Json.arr []) } :=
  batch_in_order_filters_null_replies (fun _ _ => Except.ok Json.null) "e"
    [Json.obj [("jsonrpc", Json.str "2.0"), ("id", Json.num 2), ("method", Json.str "ping")],
     Json.obj [("jsonrpc", Json.str "2.0"), ("method", Json.str "notifications/initialized")]]
    [{ jsonrpc := "2.0", id := some (Json.num 2), method := "ping", params := Json.null },
     { jsonrpc := "2.0", id := none, method := "notifications/initialized",
       params := Json.null }] rfl

/-- Successful deserialization of a request body, covering both shapes
the handler accepts: a batch deserializing as a request vector, or a
non-array value deserializing as one request. -/
def bodyParses (body : Json) : Bool :=
  match body with
  | Json.arr items => (parseRequestList items).isSome
  | _ => (parseMcpRequest body).isSome

/-- C6: every body that fails to deserialize as a single request or as a
batch is answered HTTP 200 with the JSON-RPC parse-error envelope: error
code -32700 and id null. -/
theorem malformed_body_parse_error_envelope
    (bridge : BridgeOracle) (perr : String) (body : Json)
    (h : bodyParses body = false) :
    mcp_post_handler bridge perr body =
      { status := 200, body := some (mcp_error none (-32700) ("Parse error: " ++ perr)) } ∧
    (mcp_error none (-32700) ("Parse error: " ++ perr)).getObjVal "id" = some Json.null ∧
    ((mcp_error none (-32700) ("Parse error: " ++ perr)).getObjVal "error").bind
      (fun e => e.getObjVal "code") = some (Json.num (-32700)) := by
  refine ⟨?_, rfl, rfl⟩
  cases body with
  | arr items =>
      cases hp : parseRequestList items with
      | none => simp [mcp_post_handler, hp]
      | some rs => rw [bodyParses, hp] at h; simp at h
  | null => rfl
  | bool b => rfl
  | num n => rfl
  | str s => rfl
  | obj fields =>
      cases hp : parseMcpRequest (Json.obj fields) with
      | none => simp [mcp_post_handler, hp]
      | some r =>
          have h2 : (parseMcpRequest (Json.obj fields)).isSome = false := h
          rw [hp] at h2
          simp at h2

/-- Witness for C6 at a body that is a bare string. -/
theorem malformed_body_parse_error_envelope_witness :
    mcp_post_handler (fun _ _ => Except.ok Json.null) "x" (Json.str "nonsense") =
      { status := 200, body := some (mcp_error none (-32700) ("Parse error: " ++ "x")) } ∧
    (mcp_error none (-32700) ("Parse error: " ++ "x")).getObjVal "id" = some Json.null ∧
    ((mcp_error none (-32700) ("Parse error: " ++ "x")).getObjVal "error").bind
      (fun e => e.getObjVal "code") = some (Json.num (-32700)) :=
  malformed_body_parse_error_envelope (fun _ _ => Except.ok Json.null) "x"
    (Json.str "nonsense") rfl

/-- C7: a single (non-array) body that parses is answered HTTP 202 with
an empty body exactly when it is a notification (no id) or its handling
yields no result, and HTTP 200 with the JSON-RPC envelope otherwise. -/
theorem single_request_notification_or_envelope
    (bridge : BridgeOracle) (perr : String) (fields : List (String × Json))
    (req : McpJsonRpcRequest) (h : parseMcpRequest (Json.obj fields) = some req) :
    ((req.id.isNone || (handle_mcp_method bridge req).isNull) = true →
      mcp_post_handler bridge perr (Json.obj fields) = { status := 202, body := none }) ∧
    ((req.id.isNone || (handle_mcp_method bridge req).isNull) = false →
      mcp_post_handler bridge perr (Json.obj fields) =
        { status := 200, body := some (handle_mcp_method bridge req) }) := by
  constructor <;> intro hc <;> simp [mcp_post_handler, h, hc]

/-- Witness for C7: a single id-less `ping` notification is answered 202
with an empty body. -/
theorem single_request_notification_or_envelope_witness :
    mcp_post_handler (fun _ _ => Except.ok Json.null) "e"
        (Json.obj [("jsonrpc", Json.str "2.0"), ("method", Json.str "ping")]) =
      { status := 202, body := none } :=
  (single_request_notification_or_envelope (fun _ _ => Except.ok Json.null) "e"
      [("jsonrpc", Json.str "2.0"), ("method", Json.str "ping")]
      { jsonrpc := "2.0", id := none, method := "ping", params := Json.null } rfl).1 rfl

/-- Batch deserialization fails as soon as one item fails. -/
theorem parseRequestList_none_of_mem
    (items : List Json) (bad : Json) (hmem : bad ∈ items)
    (hbad : parseMcpRequest bad = none) : parseRequestList items = none := by
  induction items with
  | nil => cases hmem
  | cons x xs ih =>
      cases hmem with
      | head => simp [parseRequestList, hbad]
      | tail _ hmem2 =>
          cases hp : parseMcpRequest x <;> simp [parseRequestList, hp, ih hmem2]

/-- C10: a batch holding any entry that fails to deserialize is rejected
as a whole: the response is the single parse-error envelope with code
-32700 and id null, and no entry of the batch is processed — the
response does not depend on the bridge oracle at all, so no tool
dispatch can have influenced it. -/
theorem batch_with_bad_entry_rejected_whole
    (bridge bridge2 : BridgeOracle) (perr : String) (items : List Json) (bad : Json)
    (hmem : bad ∈ items) (hbad : parseMcpRequest bad = none) :
    mcp_post_handler bridge perr (Json.arr items) =
      { status := 200, body := some (mcp_error none (-32700) ("Parse error: " ++ perr)) } ∧
    mcp_post_handler bridge perr (Json.arr items) =
      mcp_post_handler bridge2 perr (Json.arr items) := by
  have hp := parseRequestList_none_of_mem items bad hmem hbad
  constructor <;> simp [mcp_post_handler, hp]

/-- Witness for C10 at a batch holding one well-formed `ping` and one
bare number. -/
theorem batch_with_bad_entry_rejected_whole_witness :
    mcp_post_handler (fun _ _ => Except.ok Json.null) "x"
        (Json.arr [Json.obj [("jsonrpc", Json.str "2.0"), ("id", Json.num 1),
                             ("method", Json.str "ping")],
                   Json.num 0]) =
      { status := 200, body := some (mcp_error none (-32700) ("Parse error: " ++ "x")) } ∧
    mcp_post_handler (fun _ _ => Except.ok Json.null) "x"
        (Json.arr [Json.obj [("jsonrpc", Json.str "2.0"), ("id", Json.num 1),
                             ("method", Json.str "ping")],
                   Json.num 0]) =
      mcp_post_handler (fun _ _ => Except.error "y") "x"
        (Json.arr [Json.obj [("jsonrpc", Json.str "2.0"), ("id", Json.num 1),
                             ("method", Json.str "ping")],
                   Json.num 0]) :=
  batch_with_bad_entry_rejected_whole (fun _ _ => Except.ok Json.null)
    (fun _ _ => Except.error "y") "x"
    [Json.obj [("jsonrpc", Json.str "2.0"), ("id", Json.num 1), ("method", Json.str "ping")],
     Json.num 0]
    (Json.num 0) (List.mem_cons_of_mem _ (List.mem_cons_self _ _)) rfl
